import Mathlib

/-!
Verification of the scene-rendering and data-derivation pipeline of the
energy-narrative visualization (src/script.js).

The embedding models the JavaScript program shallowly:
  - a CSV cell parsed by the loader (`d3.autoType`) is `Option ℚ`:
    `none` is a missing value (delivered as `null`), `some q` a finite number;
  - JavaScript arithmetic on such cells is modelled explicitly: `null`
    coerces to `0` in arithmetic, division by zero produces a non-finite
    result (`Infinity`, `-Infinity` or `NaN`), captured by `JsNum`;
  - a row object is a structure whose derived fields (`primary`,
    `renewablesShare`, `fossil`, `zeroCarbon`) are `Option`-valued, `none`
    meaning the property is absent (as on rows freshly delivered by the
    loader, before the derivation `forEach` assigns them);
  - the mutable page state (current scene index, `window.world`, the shared
    y-scale domain, button disabled flags) is an explicit `AppState`, and
    the click handlers / load handler are state-transformers that also
    report a thrown JavaScript error, if any, as an `Option JsErr`.
-/

/-- Result of a JavaScript arithmetic expression over numbers: a finite
value, `Infinity`, `-Infinity`, or `NaN`. -/
inductive JsNum where
  | fin (q : ℚ)
  | posInf
  | negInf
  | nan
deriving DecidableEq

/-- JavaScript `Number.isFinite` on a `JsNum`. -/
def JsNum.isFinite : JsNum → Bool
  | .fin _ => true
  | _ => false

/-- JavaScript numeric coercion of a possibly-`null` cell: `null` coerces
to `0`, a number is itself. -/
def jsToNumber (v : Option ℚ) : ℚ := v.getD 0

/-- The `x || 0` null-guard pattern used in the derivation: `null` (falsy)
yields `0`, as does `0` itself; any other number is kept. -/
def jsOrZero (v : Option ℚ) : ℚ := v.getD 0

/-- JavaScript division `a / b` on numbers: division by zero yields
`Infinity`, `-Infinity` or `NaN` according to the sign of the numerator. -/
def jsDiv (a b : ℚ) : JsNum :=
  if b = 0 then
    if 0 < a then .posInf else if a < 0 then .negInf else .nan
  else .fin (a / b)

/-- JavaScript multiplication of a number by the positive literal `100`
(as in `... / d.primary * 100`): non-finite values stay non-finite. -/
def jsMul100 : JsNum → JsNum
  | .fin q => .fin (q * 100)
  | .posInf => .posInf
  | .negInf => .negInf
  | .nan => .nan

/-- The comparison `d.renewablesShare >= 10` on a possibly-absent field:
`undefined >= 10` and `NaN >= 10` are false, `Infinity >= 10` is true. -/
def jsGe10 (v : Option JsNum) : Bool :=
  match v with
  | none => false
  | some (.fin q) => decide ((10 : ℚ) ≤ q)
  | some .posInf => true
  | some .negInf => false
  | some .nan => false

/-- JavaScript `Number.isFinite` on a possibly-missing cell: `null` (and an
absent field) is not finite; a parsed numeric cell is. -/
def numberIsFinite (v : Option ℚ) : Bool := v.isSome

/-- One row object, as handled by src/script.js.  The raw columns are those
delivered by the loader; the four derived fields are absent (`none`) until
the derivation `forEach` assigns them onto the object. -/
structure Row where
  country : String
  year : ℤ
  primary_energy_consumption : Option ℚ
  renewables_consumption : Option ℚ
  coal_consumption : Option ℚ
  oil_consumption : Option ℚ
  gas_consumption : Option ℚ
  nuclear_consumption : Option ℚ
  primary : Option ℚ := none
  renewablesShare : Option JsNum := none
  fossil : Option ℚ := none
  zeroCarbon : Option ℚ := none
deriving DecidableEq

/-- The Row Filter (src/script.js lines 45-46):
`data.filter(d => d.country === "World")` followed by
`.filter(d => Number.isFinite(d.primary_energy_consumption))`. -/
def worldFilter (data : List Row) : List Row :=
  (data.filter (fun d => d.country == "World")).filter
    (fun d => numberIsFinite d.primary_energy_consumption)

/-- The body of the derivation `forEach` (src/script.js lines 50-58),
applied to one row object: it assigns `primary`, `renewablesShare`,
`fossil` and `zeroCarbon` onto the row, in that order. -/
def deriveRow (d : Row) : Row :=
  let e1 := { d with primary := d.primary_energy_consumption }
  let share := jsMul100 (jsDiv (jsToNumber e1.renewables_consumption) (jsToNumber e1.primary))
  let e2 := { e1 with renewablesShare := some share }
  let fossilSum := jsOrZero e2.coal_consumption + jsOrZero e2.oil_consumption + jsOrZero e2.gas_consumption
  let e3 := { e2 with fossil := some fossilSum }
  let zeroCarbonSum := jsOrZero e3.nuclear_consumption + jsOrZero e3.renewables_consumption
  { e3 with zeroCarbon := some zeroCarbonSum }

/-- The derivation `forEach` over the filtered array: the state of the
array after the in-place enrichment of every element. -/
def derive (world : List Row) : List Row := world.map deriveRow

/-- The accessor `d => d.fossil + d.zeroCarbon` used by scene 2's y-domain:
adding an absent field gives `NaN` (here `none`), which `d3.max` skips. -/
def stackTotal (d : Row) : Option ℚ :=
  match d.fossil, d.zeroCarbon with
  | some a, some b => some (a + b)
  | _, _ => none

/-- `d3.max` over accessor results: ignores missing/non-numeric values and
returns `undefined` (`none`) when no value is comparable. -/
def d3Max (l : List (Option ℚ)) : Option ℚ :=
  l.foldl (fun acc v =>
    match acc, v with
    | none, w => w
    | some m, none => some m
    | some m, some q => some (max m q)) none

/-- Defined-ness predicate of scene 0's line generator:
`Number.isFinite(d.primary)`. -/
def scene0Defined (d : Row) : Bool := numberIsFinite d.primary

/-- Defined-ness predicate of scene 1's line generator:
`Number.isFinite(d.renewablesShare)` (an absent field is not finite). -/
def scene1Defined (d : Row) : Bool :=
  match d.renewablesShare with
  | some n => n.isFinite
  | none => false

/-- Defined-ness predicate of scene 2's area generator on a stacked point:
`Number.isFinite(d[0]) && Number.isFinite(d[1])`. -/
def scene2Defined (pt : JsNum × JsNum) : Bool :=
  pt.1.isFinite && pt.2.isFinite

/-- Maximal runs of defined points: helper closing the run currently being
accumulated (an empty run is not emitted). -/
def runsClose {α : Type} (cur : List α) (runs : List (List α)) : List (List α) :=
  if cur.isEmpty then runs else cur :: runs

/-- One step of the segment computation of the charting library's
line/area generator, processed right-to-left: a defined point extends the
current run, an undefined point breaks it. -/
def runsStep {α : Type} (p : α → Bool) (a : α) :
    List α × List (List α) → List α × List (List α)
  | (cur, runs) => if p a then (a :: cur, runs) else ([], runsClose cur runs)

/-- Accumulator pass of the segment computation. -/
def runsAux {α : Type} (p : α → Bool) (l : List α) : List α × List (List α) :=
  l.foldr (runsStep p) ([], [])

/-- Segments actually drawn by the line/area generator for point sequence
`l` under defined-ness predicate `p`: the maximal runs of consecutive
defined points, in order; undefined points are drawn in no segment and
break the path into separate segments. -/
def splitRuns {α : Type} (p : α → Bool) (l : List α) : List (List α) :=
  runsClose (runsAux p l).1 (runsAux p l).2

/-- Saturating backward step of the Scene Controller
(`if (currentScene > 0) currentScene--`). -/
def prevIndex (i : ℤ) : ℤ := if 0 < i then i - 1 else i

/-- Saturating forward step of the Scene Controller
(`if (currentScene < scenes.length - 1) currentScene++`, with 3 scenes). -/
def nextIndex (i : ℤ) : ℤ := if i < 2 then i + 1 else i

/-- A navigation action: a click on the previous or next button. -/
inductive NavAct where
  | prev
  | next
deriving DecidableEq

/-- Effect of one navigation action on the scene index. -/
def navStep (i : ℤ) : NavAct → ℤ
  | .prev => prevIndex i
  | .next => nextIndex i

/-- Effect of a finite sequence of navigation actions on the scene index. -/
def navRun (i : ℤ) (acts : List NavAct) : ℤ := acts.foldl navStep i

/-- A thrown JavaScript error: referencing the undefined global `world`,
or dereferencing an `undefined` value (e.g. `world.find(...)` missing). -/
inductive JsErr where
  | refError
  | typeError
deriving DecidableEq

/-- The mutable page state of src/script.js: the scene index, the
`window.world` dataset (absent until the load completes), the shared
y-scale domain (a pair `[lo, hi]`, `hi` possibly `undefined`), the log of
executed scene draws (scene index together with the y-domain in effect at
draw time), the two button disabled flags (absent until first written),
and the log of `console.error` reports. -/
structure AppState where
  currentScene : ℤ
  world : Option (List Row)
  yDomain : ℚ × Option ℚ
  renders : List (ℤ × (ℚ × Option ℚ))
  prevDisabled : Option Bool
  nextDisabled : Option Bool
  consoleErrors : List String
deriving DecidableEq

/-- Page state right after the script runs, before the asynchronous load
resolves: index 0, no dataset, the default `d3.scaleLinear` domain `[0,1]`,
nothing rendered, buttons never written. -/
def initialState : AppState :=
  { currentScene := 0
    world := none
    yDomain := (0, some 1)
    renders := []
    prevDisabled := none
    nextDisabled := none
    consoleErrors := [] }

/-- The `render` dispatcher (src/script.js lines 72-87) together with the
dispatched scene function.  Title update and clearing of old marks have no
modelled observables.  Scene 0 draws with the y-domain left as it is;
scene 1 first sets the y-domain to `[0,100]`, then draws, then
dereferences `world.find(d => d.renewablesShare >= 10)` for its callout
(a TypeError when no row qualifies); scene 2 sets the y-domain to
`[0, d3.max(fossil + zeroCarbon)]`, then draws.  Referencing `world`
before the load has set it throws a ReferenceError.  The two button
disabled flags are written only after the scene function returns
normally. -/
def renderStep (st : AppState) : AppState × Option JsErr :=
  if st.currentScene = 0 then
    match st.world with
    | none => (st, some JsErr.refError)
    | some w =>
      if w.isEmpty then
        ({ st with renders := st.renders ++ [(0, st.yDomain)] }, some JsErr.typeError)
      else
        ({ st with renders := st.renders ++ [(0, st.yDomain)]
                   prevDisabled := some (decide (st.currentScene = 0))
                   nextDisabled := some (decide (st.currentScene = 2)) }, none)
  else if st.currentScene = 1 then
    match st.world with
    | none => ({ st with yDomain := (0, some 100) }, some JsErr.refError)
    | some w =>
      match w.find? (fun d => jsGe10 d.renewablesShare) with
      | none =>
        ({ st with yDomain := (0, some 100)
                   renders := st.renders ++ [(1, ((0 : ℚ), some (100 : ℚ)))] },
         some JsErr.typeError)
      | some _ =>
        ({ st with yDomain := (0, some 100)
                   renders := st.renders ++ [(1, ((0 : ℚ), some (100 : ℚ)))]
                   prevDisabled := some (decide (st.currentScene = 0))
                   nextDisabled := some (decide (st.currentScene = 2)) }, none)
  else if st.currentScene = 2 then
    match st.world with
    | none => (st, some JsErr.refError)
    | some w =>
      if w.isEmpty then
        ({ st with yDomain := (0, d3Max (w.map stackTotal))
                   renders := st.renders ++ [(2, ((0 : ℚ), d3Max (w.map stackTotal)))] },
         some JsErr.typeError)
      else
        ({ st with yDomain := (0, d3Max (w.map stackTotal))
                   renders := st.renders ++ [(2, ((0 : ℚ), d3Max (w.map stackTotal)))]
                   prevDisabled := some (decide (st.currentScene = 0))
                   nextDisabled := some (decide (st.currentScene = 2)) }, none)
  else (st, some JsErr.typeError)

/-- The previous-button click handler (src/script.js lines 275-278):
saturating decrement, then an unconditional `render()`. -/
def clickPrev (st : AppState) : AppState × Option JsErr :=
  renderStep { st with currentScene := prevIndex st.currentScene }

/-- The next-button click handler (src/script.js lines 279-282):
saturating increment, then an unconditional `render()`. -/
def clickNext (st : AppState) : AppState × Option JsErr :=
  renderStep { st with currentScene := nextIndex st.currentScene }

/-- The load then-handler (src/script.js lines 43-69): filter, guard on an
empty result (`console.error` and return, nothing rendered), otherwise
derive in place, set the y-domain to `[0, d3.max(primary)]`, publish
`window.world`, and render the current scene. -/
def loadThen (data : List Row) (st : AppState) : AppState × Option JsErr :=
  let world := worldFilter data
  if world.length = 0 then
    ({ st with consoleErrors := st.consoleErrors ++ ["No valid data to plot"] }, none)
  else
    let world := derive world
    renderStep { st with yDomain := ((0 : ℚ), d3Max (world.map (fun d => d.primary)))
                         world := some world }

/-- The 2020 aggregate row of the specification's end-to-end example. -/
def raw2020 : Row :=
  { country := "World"
    year := 2020
    primary_energy_consumption := some 170000
    renewables_consumption := some 18000
    coal_consumption := some 60000
    oil_consumption := some 50000
    gas_consumption := some 40000
    nuclear_consumption := some 10000 }

/-- The 1965 aggregate row of the specification's end-to-end example; its
renewables share is about 0.461 %, below the 10 % milestone. -/
def raw1965 : Row :=
  { country := "World"
    year := 1965
    primary_energy_consumption := some 43360
    renewables_consumption := some 200
    coal_consumption := some 20000
    oil_consumption := some 15000
    gas_consumption := some 5000
    nuclear_consumption := some 2000 }

/-- A row whose entity identifier does not match the aggregate. -/
def rawFrance : Row :=
  { country := "France"
    year := 2020
    primary_energy_consumption := some 9000
    renewables_consumption := some 1000
    coal_consumption := some 500
    oil_consumption := some 3000
    gas_consumption := some 1500
    nuclear_consumption := some 3000 }

/-- A retained aggregate row whose `renewables_consumption` is missing. -/
def rowMissingRen : Row :=
  { country := "World"
    year := 2000
    primary_energy_consumption := some 100
    renewables_consumption := none
    coal_consumption := some 40
    oil_consumption := some 30
    gas_consumption := some 20
    nuclear_consumption := some 5 }

lemma deriveRow_fossil (d : Row) :
    (deriveRow d).fossil =
      some (jsOrZero d.coal_consumption + jsOrZero d.oil_consumption
            + jsOrZero d.gas_consumption) := by
  simp [deriveRow]

lemma deriveRow_zeroCarbon (d : Row) :
    (deriveRow d).zeroCarbon =
      some (jsOrZero d.nuclear_consumption + jsOrZero d.renewables_consumption) := by
  simp [deriveRow]

lemma deriveRow_renewablesShare (d : Row) :
    (deriveRow d).renewablesShare =
      some (jsMul100 (jsDiv (jsToNumber d.renewables_consumption)
                            (jsToNumber d.primary_energy_consumption))) := by
  simp [deriveRow]

/-- C3: every row produced by the Series Deriver carries
`fossil = (coal||0)+(oil||0)+(gas||0)` and
`zeroCarbon = (nuclear||0)+(renewables||0)` of the corresponding input
row, each missing component contributing zero, for every combination of
present and absent components; both sums are present finite rationals. -/
theorem derive_fossil_zeroCarbon_sums (w : List Row) (i : ℕ) (d e : Row)
    (hd : w[i]? = some d) (he : (derive w)[i]? = some e) :
    e.fossil =
      some (jsOrZero d.coal_consumption + jsOrZero d.oil_consumption
            + jsOrZero d.gas_consumption)
    ∧ e.zeroCarbon =
      some (jsOrZero d.nuclear_consumption + jsOrZero d.renewables_consumption) := by
  have hmap : (derive w)[i]? = (w[i]?).map deriveRow := by
    simp [derive]
  rw [hmap, hd] at he
  have he' : e = deriveRow d := by
    simpa using he.symm
  subst he'
  exact ⟨deriveRow_fossil d, deriveRow_zeroCarbon d⟩

/-- Witness for C3 at the concrete 1965 example row. -/
theorem derive_fossil_zeroCarbon_sums_witness :
    (deriveRow raw1965).fossil =
      some (jsOrZero raw1965.coal_consumption + jsOrZero raw1965.oil_consumption
            + jsOrZero raw1965.gas_consumption)
    ∧ (deriveRow raw1965).zeroCarbon =
      some (jsOrZero raw1965.nuclear_consumption
            + jsOrZero raw1965.renewables_consumption) :=
  derive_fossil_zeroCarbon_sums [raw1965] 0 raw1965 (deriveRow raw1965) rfl rfl

/-- C4 counterexample: on a retained row whose `renewables_consumption` is
missing and whose primary metric is 100 (nonzero), the derived
`renewablesShare` is the finite number 0 — the missing numerator is
coerced to zero by the division, not flagged non-finite — refuting the
claimed "finite iff renewables_consumption is present and primary != 0". -/
theorem renewablesShare_missing_numerator_counterexample :
    rowMissingRen.renewables_consumption = none
    ∧ rowMissingRen.primary_energy_consumption = some 100
    ∧ (deriveRow rowMissingRen).renewablesShare = some (JsNum.fin 0)
    ∧ scene1Defined (deriveRow rowMissingRen) = true := by
  refine ⟨rfl, rfl, ?_, rfl⟩
  norm_num [deriveRow, jsDiv, jsMul100, jsToNumber, rowMissingRen]

/-- C4 amended: the derived `renewablesShare` equals
`renewables_consumption / primary * 100` under JavaScript coercion (a
missing numerator counts as 0), and it is finite if and only if the
primary metric is a present nonzero number; in particular a missing
`renewables_consumption` over a nonzero primary yields the finite value 0
rather than a non-finite flag. -/
theorem renewablesShare_finite_iff_primary_nonzero (d : Row) :
    scene1Defined (deriveRow d)
      = !decide (jsToNumber d.primary_energy_consumption = 0) := by
  rw [scene1Defined, deriveRow_renewablesShare]
  by_cases h : jsToNumber d.primary_energy_consumption = 0
  · simp only [h, decide_eq_true_eq, jsDiv, if_pos rfl]
    simp only [eq_self_iff_true, decide_true_eq_true, Bool.not_true]
    rcases lt_trichotomy (0 : ℚ) (jsToNumber d.renewables_consumption) with hlt | heq | hgt
    · simp [hlt, jsMul100, JsNum.isFinite]
    · simp [← heq, jsMul100, JsNum.isFinite]
    · simp [not_lt.mpr (le_of_lt hgt), hgt, jsMul100, JsNum.isFinite]
  · simp [jsDiv, h, jsMul100, JsNum.isFinite]

/-- Witness for the amended C4 statement at the concrete 2020 row. -/
theorem renewablesShare_finite_iff_primary_nonzero_witness :
    scene1Defined (deriveRow raw2020) = true := by
  rw [renewablesShare_finite_iff_primary_nonzero raw2020]
  decide

/-- C5: the Row Filter's output is exactly the ordered sub-sequence of the
input rows whose entity identifier is the aggregate `"World"` and whose
primary metric is present and finite; every output row passes both checks,
the output is a sublist (order-preserving selection) of the input, and its
length is at most the input length. -/
theorem worldFilter_exact (data : List Row) :
    worldFilter data =
      data.filter (fun d => d.country == "World"
        && numberIsFinite d.primary_energy_consumption)
    ∧ (worldFilter data).all
        (fun d => d.country == "World"
          && numberIsFinite d.primary_energy_consumption) = true
    ∧ (worldFilter data).Sublist data
    ∧ (worldFilter data).length ≤ data.length := by
  have hcomp : worldFilter data =
      data.filter (fun d => d.country == "World"
        && numberIsFinite d.primary_energy_consumption) := by
    rw [worldFilter, List.filter_filter]
    apply List.filter_congr
    intro d _
    exact Bool.and_comm _ _
  refine ⟨hcomp, ?_, ?_, ?_⟩
  · rw [List.all_eq_true]
    intro x hx
    rw [hcomp] at hx
    exact (List.mem_filter.mp hx).2
  · exact (List.filter_sublist _).trans (List.filter_sublist _)
  · exact le_trans (List.length_filter_le _ _) (List.length_filter_le _ _)

/-- C10 counterexample: the derivation mutates the retained raw rows in
place — after derivation the 1965 row object is not field-wise identical
to its state as delivered by the loader: the fields `primary`,
`renewablesShare`, `fossil` and `zeroCarbon` have been added to it. -/
theorem deriveRow_mutates_counterexample :
    raw1965.primary = none ∧ raw1965.renewablesShare = none
    ∧ (deriveRow raw1965).primary = some 43360
    ∧ ((deriveRow raw1965).renewablesShare).isSome = true :=
  ⟨rfl, rfl, rfl, rfl⟩

/-- C10 amended: the Series Deriver enriches the retained raw row objects
in place, adding the four derived fields, so raw rows are not left
field-wise identical; however, every raw column (`country`, `year` and the
six consumption columns) is left unchanged by the derivation. -/
theorem derive_preserves_raw_columns (d : Row) :
    (deriveRow d).country = d.country
    ∧ (deriveRow d).year = d.year
    ∧ (deriveRow d).primary_energy_consumption = d.primary_energy_consumption
    ∧ (deriveRow d).renewables_consumption = d.renewables_consumption
    ∧ (deriveRow d).coal_consumption = d.coal_consumption
    ∧ (deriveRow d).oil_consumption = d.oil_consumption
    ∧ (deriveRow d).gas_consumption = d.gas_consumption
    ∧ (deriveRow d).nuclear_consumption = d.nuclear_consumption
    ∧ (deriveRow d).primary.isSome = ((deriveRow d).primary_energy_consumption).isSome
    ∧ (deriveRow d).renewablesShare.isSome = true
    ∧ (deriveRow d).fossil.isSome = true
    ∧ (deriveRow d).zeroCarbon.isSome = true := by
  refine ⟨rfl, rfl, rfl, rfl, rfl, rfl, rfl, rfl, ?_, rfl, rfl, rfl⟩
  simp [deriveRow]

lemma runsClose_all {α : Type} (p : α → Bool) (cur : List α) (runs : List (List α))
    (hc : cur.all p = true) (hr : runs.all (fun r => r.all p) = true) :
    (runsClose cur runs).all (fun r => r.all p) = true := by
  unfold runsClose
  split
  · exact hr
  · simp only [List.all_cons, hc, hr, Bool.and_self]

lemma runsAux_all {α : Type} (p : α → Bool) (l : List α) :
    (runsAux p l).1.all p = true ∧ (runsAux p l).2.all (fun r => r.all p) = true := by
  induction l with
  | nil => simp [runsAux]
  | cons a t ih =>
    rw [show runsAux p (a :: t) = runsStep p a (runsAux p t) from rfl]
    rcases hx : runsAux p t with ⟨c, r⟩
    rw [hx] at ih
    by_cases hp : p a
    · simp [runsStep, hp, ih.1, ih.2]
    · simpa [runsStep, hp] using runsClose_all p c r ih.1 ih.2

lemma splitRuns_all {α : Type} (p : α → Bool) (l : List α) :
    (splitRuns p l).all (fun r => r.all p) = true :=
  runsClose_all p _ _ (runsAux_all p l).1 (runsAux_all p l).2

lemma runsClose_append {α : Type} (cur : List α) (r R : List (List α)) :
    runsClose cur (r ++ R) = runsClose cur r ++ R := by
  unfold runsClose
  split <;> simp

lemma runsAux_init {α : Type} (p : α → Bool) (l : List α) (R : List (List α)) :
    l.foldr (runsStep p) ([], R) =
      ((l.foldr (runsStep p) ([], [])).1, (l.foldr (runsStep p) ([], [])).2 ++ R) := by
  induction l with
  | nil => simp
  | cons a t ih =>
    rw [List.foldr_cons, List.foldr_cons, ih]
    rcases hx : t.foldr (runsStep p) ([], []) with ⟨c, r⟩
    by_cases hp : p a <;> simp [runsStep, hp, runsClose_append]

lemma splitRuns_gap {α : Type} (p : α → Bool) (l₁ l₂ : List α) (b : α)
    (hb : p b = false) :
    splitRuns p (l₁ ++ b :: l₂) = splitRuns p l₁ ++ splitRuns p l₂ := by
  have hb' : (b :: l₂).foldr (runsStep p) ([], []) = ([], splitRuns p l₂) := by
    rw [List.foldr_cons]
    rcases hx : l₂.foldr (runsStep p) ([], []) with ⟨c, r⟩
    simp [runsStep, hb, splitRuns, runsAux, hx]
  unfold splitRuns runsAux
  rw [List.foldr_append, hb', runsAux_init]
  rcases hx : l₁.foldr (runsStep p) ([], []) with ⟨c, r⟩
  simp [runsClose_append, splitRuns, runsAux]

/-- C6: in each scene's draw routine a data point whose required metric is
non-finite (primary for scene 0, renewablesShare for scene 1, either stack
boundary for scene 2) is excluded from the drawn segments — every drawn
point satisfies the scene's defined-ness predicate — and an undefined
point splits the path into the segments of the points before it and the
segments of the points after it (a visible gap, never interpolated
across or treated as zero). -/
theorem scene_defined_gap_policy :
    (∀ w : List Row,
      (splitRuns scene0Defined w).all (fun run => run.all scene0Defined) = true)
    ∧ (∀ w : List Row,
      (splitRuns scene1Defined w).all (fun run => run.all scene1Defined) = true)
    ∧ (∀ s : List (JsNum × JsNum),
      (splitRuns scene2Defined s).all (fun run => run.all scene2Defined) = true)
    ∧ (∀ (l₁ l₂ : List Row) (b : Row), scene0Defined b = false →
        splitRuns scene0Defined (l₁ ++ b :: l₂) =
          splitRuns scene0Defined l₁ ++ splitRuns scene0Defined l₂)
    ∧ (∀ (l₁ l₂ : List Row) (b : Row), scene1Defined b = false →
        splitRuns scene1Defined (l₁ ++ b :: l₂) =
          splitRuns scene1Defined l₁ ++ splitRuns scene1Defined l₂)
    ∧ (∀ (l₁ l₂ : List (JsNum × JsNum)) (b : JsNum × JsNum), scene2Defined b = false →
        splitRuns scene2Defined (l₁ ++ b :: l₂) =
          splitRuns scene2Defined l₁ ++ splitRuns scene2Defined l₂) :=
  ⟨fun w => splitRuns_all _ w,
   fun w => splitRuns_all _ w,
   fun s => splitRuns_all _ s,
   fun l₁ l₂ b hb => splitRuns_gap _ l₁ l₂ b hb,
   fun l₁ l₂ b hb => splitRuns_gap _ l₁ l₂ b hb,
   fun l₁ l₂ b hb => splitRuns_gap _ l₁ l₂ b hb⟩

/-- Witness for C6: a raw (underived) row, whose `renewablesShare` is
absent and hence not finite, gaps scene 1's line between its neighbours. -/
theorem scene_defined_gap_policy_witness :
    splitRuns scene1Defined ([deriveRow raw1965] ++ raw1965 :: [deriveRow raw2020]) =
      splitRuns scene1Defined [deriveRow raw1965]
        ++ splitRuns scene1Defined [deriveRow raw2020] :=
  scene_defined_gap_policy.2.2.2.2.1 [deriveRow raw1965] [deriveRow raw2020] raw1965 rfl

lemma renderStep_currentScene (st : AppState) :
    (renderStep st).1.currentScene = st.currentScene := by
  unfold renderStep
  repeat' split
  all_goals rfl

/-- C1: the navigation state machine over indices 0..2: "previous" at 0 is
a no-op and leaves the previous button disabled, "next" at 2 is a no-op,
both actions at 1 move by exactly one step; the click handlers change the
index exactly by the saturating steps, and every finite action sequence
preserves the invariant `0 <= currentIndex < 3` (no wraparound). -/
theorem navigation_saturating_invariant :
    prevIndex 0 = 0 ∧ nextIndex 2 = 2 ∧ prevIndex 1 = 0 ∧ nextIndex 1 = 2
    ∧ (∀ st : AppState, (clickPrev st).1.currentScene = prevIndex st.currentScene
        ∧ (clickNext st).1.currentScene = nextIndex st.currentScene)
    ∧ (∀ (st : AppState) (d : Row) (rest : List Row), st.currentScene = 0 →
        st.world = some (d :: rest) →
        (clickPrev st).1.currentScene = 0 ∧ (clickPrev st).1.prevDisabled = some true)
    ∧ (∀ (acts : List NavAct) (i : ℤ), 0 ≤ i → i < 3 →
        0 ≤ navRun i acts ∧ navRun i acts < 3) := by
  refine ⟨by decide, by decide, by decide, by decide, ?_, ?_, ?_⟩
  · intro st
    exact ⟨renderStep_currentScene _, renderStep_currentScene _⟩
  · intro st d rest h0 hw
    have hp : prevIndex st.currentScene = 0 := by rw [h0]; rfl
    constructor
    · rw [clickPrev, renderStep_currentScene]
      exact hp
    · simp [clickPrev, hp, renderStep, hw]
  · intro acts
    induction acts with
    | nil => intro i h0 h3; exact ⟨h0, h3⟩
    | cons a t ih =>
      intro i h0 h3
      have hstep : 0 ≤ navStep i a ∧ navStep i a < 3 := by
        cases a <;> simp only [navStep, prevIndex, nextIndex] <;> split <;> omega
      exact ih (navStep i a) hstep.1 hstep.2

/-- A loaded page state sitting at scene 0, used as a concrete witness. -/
def stW : AppState :=
  { currentScene := 0
    world := some [deriveRow raw1965]
    yDomain := (0, some 43360)
    renders := [(0, ((0 : ℚ), some (43360 : ℚ)))]
    prevDisabled := some true
    nextDisabled := some false
    consoleErrors := [] }

/-- Witness for C1 at a concrete loaded state and action sequence. -/
theorem navigation_saturating_invariant_witness :
    ((clickPrev stW).1.currentScene = 0 ∧ (clickPrev stW).1.prevDisabled = some true)
    ∧ (0 ≤ navRun 0 [NavAct.next, NavAct.next, NavAct.next, NavAct.prev]
        ∧ navRun 0 [NavAct.next, NavAct.next, NavAct.next, NavAct.prev] < 3) :=
  ⟨navigation_saturating_invariant.2.2.2.2.2.1 stW (deriveRow raw1965) [] rfl rfl,
   navigation_saturating_invariant.2.2.2.2.2.2
     [NavAct.next, NavAct.next, NavAct.next, NavAct.prev] 0 (by decide) (by decide)⟩

/-- C8: when the Row Filter yields zero rows, the load handler reports the
condition on the console and stops: nothing is rendered, `window.world` is
never published, and no exception is thrown. -/
theorem empty_filter_reported (data : List Row) (h : worldFilter data = []) :
    (loadThen data initialState).1.renders = []
    ∧ (loadThen data initialState).1.world = none
    ∧ (loadThen data initialState).1.consoleErrors = ["No valid data to plot"]
    ∧ (loadThen data initialState).2 = none := by
  simp [loadThen, h, initialState]

/-- Witness for C8: a dataset with no aggregate row. -/
theorem empty_filter_reported_witness :
    (loadThen [rawFrance] initialState).1.renders = []
    ∧ (loadThen [rawFrance] initialState).1.world = none
    ∧ (loadThen [rawFrance] initialState).1.consoleErrors = ["No valid data to plot"]
    ∧ (loadThen [rawFrance] initialState).2 = none :=
  empty_filter_reported [rawFrance] (by simp [worldFilter, rawFrance])

/-- C9 (refuting inertness): before the load has delivered any data, a
click on "next" is not inert — the handler advances the index to 1 and
unconditionally calls the render dispatcher, whose scene draw dereferences
the still-undefined `world` and throws a ReferenceError (after already
mutating the shared y-domain to scene 1's `[0,100]`); nothing is drawn. -/
theorem preload_click_renders_and_throws :
    initialState.world = none
    ∧ (clickNext initialState).2 = some JsErr.refError
    ∧ (clickNext initialState).1.currentScene = 1
    ∧ (clickNext initialState).1.yDomain = (0, some 100)
    ∧ (clickNext initialState).1.renders = [] := by
  refine ⟨rfl, ?_, ?_, ?_, ?_⟩ <;> rfl

/-- A singleton dataset whose aggregate row never reaches the 10 % share. -/
def data1965 : List Row := [raw1965]

/-- A singleton dataset whose aggregate row is above the 10 % share. -/
def data2020 : List Row := [raw2020]

lemma worldFilter_data1965 : worldFilter data1965 = [raw1965] := by
  simp [worldFilter, data1965, raw1965, numberIsFinite]

lemma worldFilter_data2020 : worldFilter data2020 = [raw2020] := by
  simp [worldFilter, data2020, raw2020, numberIsFinite]

lemma share1965_lt10 : jsGe10 (deriveRow raw1965).renewablesShare = false := by
  norm_num [jsGe10, deriveRow, jsDiv, jsMul100, jsToNumber, raw1965]

lemma share2020_ge10 : jsGe10 (deriveRow raw2020).renewablesShare = true := by
  norm_num [jsGe10, deriveRow, jsDiv, jsMul100, jsToNumber, raw2020]

lemma primary_d1965 : (deriveRow raw1965).primary = some 43360 := rfl

lemma primary_d2020 : (deriveRow raw2020).primary = some 170000 := rfl

/-- C7 (refuting the omission): on a dataset whose retained rows never
reach a 10 % renewables share, scene 1's render does not omit the
milestone callout — `world.find(...)` yields `undefined` and the unguarded
`cross.year` dereference throws a TypeError. -/
theorem scene1_no_milestone_typeError :
    (clickNext (loadThen data1965 initialState).1).2 = some JsErr.typeError
    ∧ (derive (worldFilter data1965)).find? (fun d => jsGe10 d.renewablesShare) = none := by
  constructor
  · simp [loadThen, worldFilter_data1965, derive, d3Max, primary_d1965, initialState,
          renderStep, clickNext, nextIndex, share1965_lt10]
  · simp [worldFilter_data1965, derive, share1965_lt10]

/-- C2 (refuting per-render domain setting): after rendering scene 0, then
scene 1, then scene 0 again, the second scene-0 draw uses the y-domain
`[0,100]` left behind by scene 1 — scene 0 sets no y-domain of its own
(the `[0, max(primary)]` domain is set only once, at load time) — instead
of the claimed `[0, max(primary)] = [0, 170000]`. -/
theorem scene0_redraw_uses_stale_domain :
    ((clickPrev (clickNext (loadThen data2020 initialState).1).1).1).renders =
      [(0, ((0 : ℚ), some (170000 : ℚ))),
       (1, ((0 : ℚ), some (100 : ℚ))),
       (0, ((0 : ℚ), some (100 : ℚ)))]
    ∧ (clickPrev (clickNext (loadThen data2020 initialState).1).1).2 = none
    ∧ d3Max ((derive (worldFilter data2020)).map (fun d => d.primary)) = some 170000 := by
  refine ⟨?_, ?_, ?_⟩
  · simp [loadThen, worldFilter_data2020, derive, d3Max, primary_d2020, initialState,
          renderStep, clickNext, clickPrev, nextIndex, prevIndex, share2020_ge10]
  · simp [loadThen, worldFilter_data2020, derive, d3Max, primary_d2020, initialState,
          renderStep, clickNext, clickPrev, nextIndex, prevIndex, share2020_ge10]
  · simp [worldFilter_data2020, derive, d3Max, primary_d2020]
